import Mathlib

/-!
Shallow embedding of `src/examples/lambda-env/code/hello.py`.

The Python module defines a single AWS Lambda handler `lambda_handler(event, context)`
that reads the environment variables DB_HOST, DB_PORT, DATA_BUCKET, DEPLOYMENT_BUCKET
(defaulting to the placeholder string "N/A") and AWS_REGION (no default, so Python
`None` / JSON `null`), reads the UTC wall clock, and returns a response dict with
`statusCode`, `headers` and a JSON-serialised `body`.

The embedding models:
- JSON values (`JValue`) and Python `json.dumps` over them (`dumps`);
- the process environment as a partial map `Env`;
- Python aware-UTC datetimes (`PyDateTime`), `datetime.isoformat` for a
  UTC-aware value (`isoformat`) and `datetime.fromisoformat` restricted to the
  strings `isoformat` can produce (`parseIso`);
- Python attribute access on the context object: a context whose attributes may
  be missing (`ContextObj`); a missing attribute raises, modelled by `Except`;
- the handler itself (`lambda_handler`), with the wall-clock reading passed in
  explicitly, and a state-passing variant (`lambda_handlerState`) that threads
  the observable world (environment map and clock) through every read.
-/

/-- JSON values, as produced by the Python handler's body dictionary. -/
inductive JValue where
  | null : JValue
  | str : String → JValue
  | num : Int → JValue
  | obj : List (String × JValue) → JValue

/-- Process environment: `os.environ` as a partial map from names to values. -/
abbrev Env := String → Option String

/-- Field lookup in a JSON object, `none` on non-objects and missing keys. -/
def JValue.getField : JValue → String → Option JValue
  | .obj fs, k => fs.lookup k
  | .null, _ => none
  | .str _, _ => none
  | .num _, _ => none

/-- Lookup of a nested path of keys in a JSON value. -/
def jLookup : JValue → List String → Option JValue
  | v, [] => some v
  | v, k :: ks =>
    match v.getField k with
    | some v' => jLookup v' ks
    | none => none

/-- Escaping of a single character inside a JSON string literal
(the cases Python `json.dumps` escapes that can appear in this program). -/
def escapeChar (c : Char) : List Char :=
  if c = '"' then ['\\', '"']
  else if c = '\\' then ['\\', '\\']
  else if c = '\n' then ['\\', 'n']
  else if c = '\t' then ['\\', 't']
  else if c = '\r' then ['\\', 'r']
  else [c]

/-- JSON string literal serialisation. -/
def dumpsString (s : String) : String :=
  "\"" ++ String.mk ((s.toList.map escapeChar).flatten) ++ "\""

mutual
/-- Python `json.dumps` with its default separators (", " and ": "). -/
def dumps : JValue → String
  | .null => "null"
  | .str s => dumpsString s
  | .num n => toString n
  | .obj fs => "\x7b" ++ dumpsFields fs ++ "\x7d"

/-- Serialisation of the key-value pairs of a JSON object. -/
def dumpsFields : List (String × JValue) → String
  | [] => ""
  | [(k, v)] => dumpsString k ++ ": " ++ dumps v
  | (k, v) :: kv :: rest => dumpsString k ++ ": " ++ dumps v ++ ", " ++ dumpsFields (kv :: rest)
end

/-- Python aware-UTC datetime: the fields of `datetime.now(timezone.utc)`. -/
structure PyDateTime where
  year : Nat
  month : Nat
  day : Nat
  hour : Nat
  minute : Nat
  second : Nat
  microsecond : Nat
deriving DecidableEq

/-- Gregorian leap-year test, as in Python's `datetime`. -/
def isLeapYear (y : Nat) : Bool :=
  (y % 4 == 0 && y % 100 != 0) || y % 400 == 0

/-- Number of days in a month of a year, as in Python's `datetime`. -/
def daysInMonth (y m : Nat) : Nat :=
  if m = 2 then (if isLeapYear y then 29 else 28)
  else if m = 4 ∨ m = 6 ∨ m = 9 ∨ m = 11 then 30
  else 31

/-- Range constraints Python's `datetime` guarantees for every constructed value,
hence for every reading of `datetime.now(timezone.utc)`. -/
def PyDateTime.Valid (d : PyDateTime) : Prop :=
  1 ≤ d.year ∧ d.year ≤ 9999 ∧ 1 ≤ d.month ∧ d.month ≤ 12 ∧
  1 ≤ d.day ∧ d.day ≤ daysInMonth d.year d.month ∧
  d.hour ≤ 23 ∧ d.minute ≤ 59 ∧ d.second ≤ 59 ∧ d.microsecond ≤ 999999

instance (d : PyDateTime) : Decidable d.Valid := by
  unfold PyDateTime.Valid
  exact inferInstance

/-- Decimal digit as a character. -/
def digitChar (d : Nat) : Char := Char.ofNat (48 + d)

/-- Numeric value of a decimal digit character. -/
def digitVal (c : Char) : Nat := c.toNat - 48

/-- Zero-padded two-digit decimal rendering (Python's `%02d` for values below 100). -/
def pad2 (n : Nat) : List Char := [digitChar (n / 10 % 10), digitChar (n % 10)]

/-- Zero-padded four-digit decimal rendering (Python's `%04d` for values below 10000). -/
def pad4 (n : Nat) : List Char :=
  [digitChar (n / 1000 % 10), digitChar (n / 100 % 10), digitChar (n / 10 % 10), digitChar (n % 10)]

/-- Zero-padded six-digit decimal rendering (Python's `%06d` for values below 1000000). -/
def pad6 (n : Nat) : List Char :=
  [digitChar (n / 100000 % 10), digitChar (n / 10000 % 10), digitChar (n / 1000 % 10),
   digitChar (n / 100 % 10), digitChar (n / 10 % 10), digitChar (n % 10)]

/-- Python `datetime.isoformat()` on an aware UTC datetime:
`YYYY-MM-DDTHH:MM:SS[.ffffff]+00:00`, the fractional part omitted when the
microsecond field is zero. -/
def isoformat (d : PyDateTime) : String :=
  String.mk (pad4 d.year ++ '-' :: pad2 d.month ++ '-' :: pad2 d.day ++
    'T' :: pad2 d.hour ++ ':' :: pad2 d.minute ++ ':' :: pad2 d.second ++
    (if d.microsecond = 0 then [] else '.' :: pad6 d.microsecond) ++
    ['+', '0', '0', ':', '0', '0'])

/-- Value of two decimal digit characters. -/
def read2 (a b : Char) : Nat := digitVal a * 10 + digitVal b

/-- Value of four decimal digit characters. -/
def read4 (a b c d : Char) : Nat :=
  digitVal a * 1000 + digitVal b * 100 + digitVal c * 10 + digitVal d

/-- Value of six decimal digit characters. -/
def read6 (a b c d e f : Char) : Nat :=
  digitVal a * 100000 + digitVal b * 10000 + digitVal c * 1000 +
  digitVal d * 100 + digitVal e * 10 + digitVal f

/-- Characters of the UTC offset suffix `+00:00`. -/
def offsetChars : List Char := ['+', '0', '0', ':', '0', '0']

/-- Validation step of `datetime.fromisoformat`: all positions must hold
decimal digits and the assembled fields must satisfy the `datetime` range
constraints; otherwise the parse fails (Python raises `ValueError`). -/
def checkIso (y1 y2 y3 y4 mo1 mo2 dd1 dd2 hh1 hh2 mi1 mi2 ss1 ss2 : Char)
    (micro : Nat) : Option PyDateTime :=
  let d : PyDateTime :=
    ⟨read4 y1 y2 y3 y4, read2 mo1 mo2, read2 dd1 dd2,
     read2 hh1 hh2, read2 mi1 mi2, read2 ss1 ss2, micro⟩
  if ([y1, y2, y3, y4, mo1, mo2, dd1, dd2, hh1, hh2, mi1, mi2, ss1, ss2].all Char.isDigit)
      ∧ d.Valid then
    some d
  else none

/-- Python `datetime.fromisoformat`, restricted to the aware-UTC shapes that
`isoformat` produces: `YYYY-MM-DDTHH:MM:SS+00:00`, optionally with a six-digit
fractional second before the offset. -/
def parseIso (s : String) : Option PyDateTime :=
  match s.toList with
  | y1 :: y2 :: y3 :: y4 :: a1 :: mo1 :: mo2 :: a2 :: dd1 :: dd2 ::
    a3 :: hh1 :: hh2 :: a4 :: mi1 :: mi2 :: a5 :: ss1 :: ss2 :: rest =>
    if a1 = '-' ∧ a2 = '-' ∧ a3 = 'T' ∧ a4 = ':' ∧ a5 = ':' then
      match rest with
      | [b1, b2, b3, b4, b5, b6] =>
        if [b1, b2, b3, b4, b5, b6] = offsetChars then
          checkIso y1 y2 y3 y4 mo1 mo2 dd1 dd2 hh1 hh2 mi1 mi2 ss1 ss2 0
        else none
      | b0 :: u1 :: u2 :: u3 :: u4 :: u5 :: u6 :: tail =>
        if b0 = '.' ∧ tail = offsetChars ∧ ([u1, u2, u3, u4, u5, u6].all Char.isDigit) then
          checkIso y1 y2 y3 y4 mo1 mo2 dd1 dd2 hh1 hh2 mi1 mi2 ss1 ss2
            (read6 u1 u2 u3 u4 u5 u6)
        else none
      | _ => none
    else none
  | _ => none

/-- Invocation context after successful attribute access: the three fields the
handler reads. -/
structure Context where
  function_name : String
  memory_limit_in_mb : Int
  aws_request_id : String

/-- Raw invocation context object: in Python, each attribute access may fail
with `AttributeError` if the object does not expose the attribute. -/
structure ContextObj where
  function_name : Option String
  memory_limit_in_mb : Option Int
  aws_request_id : Option String

/-- Python attribute access: the value if present, `AttributeError` otherwise. -/
def getAttr {α : Type} (v : Option α) (nm : String) : Except String α :=
  match v with
  | some x => Except.ok x
  | none => Except.error ("AttributeError: " ++ nm)

/-- Conversion of an optional string to JSON, as `json.dumps` treats a Python
value that is either a string or `None`. -/
def optStr : Option String → JValue
  | none => JValue.null
  | some s => JValue.str s

/-- Response dictionary returned by the handler: `statusCode`, `headers`, `body`. -/
structure Response where
  statusCode : Nat
  headers : List (String × String)
  body : String

/-- Body dictionary of `lambda_handler` before serialisation, from hello.py
lines 18-38: the four environment variables read with default 'N/A', the
greeting, the clock reading in ISO format, the three context fields, and
AWS_REGION read with no default. -/
def handlerBodyJson (context : Context) (env : Env) (now : PyDateTime) : JValue :=
  let db_host := (env "DB_HOST").getD "N/A"
  let db_port := (env "DB_PORT").getD "N/A"
  let data_bucket := (env "DATA_BUCKET").getD "N/A"
  let deployment_bucket := (env "DEPLOYMENT_BUCKET").getD "N/A"
  JValue.obj [
    ("message", JValue.str "Hello World from Lambda with Environment Variables!"),
    ("timestamp", JValue.str (isoformat now)),
    ("function_info", JValue.obj [
      ("name", JValue.str context.function_name),
      ("memory_limit", JValue.num context.memory_limit_in_mb),
      ("request_id", JValue.str context.aws_request_id)]),
    ("environment_variables", JValue.obj [
      ("database", JValue.obj [
        ("host", JValue.str db_host),
        ("port", JValue.str db_port)]),
      ("buckets", JValue.obj [
        ("data_bucket", JValue.str data_bucket),
        ("deployment_bucket", JValue.str deployment_bucket)])]),
    ("vpc_info", JValue.obj [
      ("region", optStr (env "AWS_REGION"))])]

/-- The handler `lambda_handler(event, context)` of hello.py. The process
environment and the wall-clock reading are explicit inputs; the three context
attribute reads may raise `AttributeError`, every other step is infallible. -/
def lambda_handler (event : JValue) (context : ContextObj) (env : Env)
    (now : PyDateTime) : Except String Response :=
  match getAttr context.function_name "function_name" with
  | Except.error err => Except.error err
  | Except.ok nm =>
    match getAttr context.memory_limit_in_mb "memory_limit_in_mb" with
    | Except.error err => Except.error err
    | Except.ok mem =>
      match getAttr context.aws_request_id "aws_request_id" with
      | Except.error err => Except.error err
      | Except.ok rid =>
        Except.ok (Response.mk 200 [("Content-Type", "application/json")]
          (dumps (handlerBodyJson (Context.mk nm mem rid) env now)))

/-- Observable world state the handler can touch: the process environment and
the wall clock. -/
structure World where
  env : Env
  now : PyDateTime

/-- Reading one environment variable (`os.environ.get`): returns the value and
the world, unchanged. -/
def readEnvVar (k : String) (w : World) : Option String × World := (w.env k, w)

/-- Reading the wall clock (`datetime.now(timezone.utc)`): returns the reading
and the world, unchanged. -/
def readClock (w : World) : PyDateTime × World := (w.now, w)

/-- State-passing form of `lambda_handler`, threading the world through every
effectful read in the order the Python source performs them. -/
def lambda_handlerState (event : JValue) (context : Context) (w : World) :
    Response × World :=
  let (db_host, w1) := readEnvVar "DB_HOST" w
  let (db_port, w2) := readEnvVar "DB_PORT" w1
  let (data_bucket, w3) := readEnvVar "DATA_BUCKET" w2
  let (deployment_bucket, w4) := readEnvVar "DEPLOYMENT_BUCKET" w3
  let (ts, w5) := readClock w4
  let (region, w6) := readEnvVar "AWS_REGION" w5
  (Response.mk 200 [("Content-Type", "application/json")]
    (dumps (JValue.obj [
      ("message", JValue.str "Hello World from Lambda with Environment Variables!"),
      ("timestamp", JValue.str (isoformat ts)),
      ("function_info", JValue.obj [
        ("name", JValue.str context.function_name),
        ("memory_limit", JValue.num context.memory_limit_in_mb),
        ("request_id", JValue.str context.aws_request_id)]),
      ("environment_variables", JValue.obj [
        ("database", JValue.obj [
          ("host", JValue.str (db_host.getD "N/A")),
          ("port", JValue.str (db_port.getD "N/A"))]),
        ("buckets", JValue.obj [
          ("data_bucket", JValue.str (data_bucket.getD "N/A")),
          ("deployment_bucket", JValue.str (deployment_bucket.getD "N/A"))])]),
      ("vpc_info", JValue.obj [
        ("region", optStr region)])])), w6)

/-! ### Decimal digit lemmas -/

theorem toList_mk (L : List Char) : (String.mk L).toList = L := rfl

theorem digitVal_digitChar (d : Nat) (h : d < 10) : digitVal (digitChar d) = d := by
  interval_cases d <;> rfl

theorem isDigit_digitChar (d : Nat) (h : d < 10) : (digitChar d).isDigit = true := by
  interval_cases d <;> rfl

theorem digitVal_digitChar_mod (n : Nat) : digitVal (digitChar (n % 10)) = n % 10 :=
  digitVal_digitChar _ (Nat.mod_lt _ (by omega))

theorem isDigit_digitChar_mod (n : Nat) : (digitChar (n % 10)).isDigit = true :=
  isDigit_digitChar _ (Nat.mod_lt _ (by omega))

theorem read2_pad2 (n : Nat) (h : n ≤ 99) :
    read2 (digitChar (n / 10 % 10)) (digitChar (n % 10)) = n := by
  simp only [read2, digitVal_digitChar_mod]
  omega

theorem read4_pad4 (n : Nat) (h : n ≤ 9999) :
    read4 (digitChar (n / 1000 % 10)) (digitChar (n / 100 % 10))
      (digitChar (n / 10 % 10)) (digitChar (n % 10)) = n := by
  simp only [read4, digitVal_digitChar_mod]
  omega

theorem read6_pad6 (n : Nat) (h : n ≤ 999999) :
    read6 (digitChar (n / 100000 % 10)) (digitChar (n / 10000 % 10))
      (digitChar (n / 1000 % 10)) (digitChar (n / 100 % 10))
      (digitChar (n / 10 % 10)) (digitChar (n % 10)) = n := by
  simp only [read6, digitVal_digitChar_mod]
  omega

theorem daysInMonth_le (y m : Nat) : daysInMonth y m ≤ 31 := by
  unfold daysInMonth
  split
  · split <;> omega
  · split <;> omega

theorem checkIso_pads (y mo dy hh mi ss micro : Nat)
    (hv : PyDateTime.Valid ⟨y, mo, dy, hh, mi, ss, micro⟩) :
    checkIso (digitChar (y / 1000 % 10)) (digitChar (y / 100 % 10))
      (digitChar (y / 10 % 10)) (digitChar (y % 10))
      (digitChar (mo / 10 % 10)) (digitChar (mo % 10))
      (digitChar (dy / 10 % 10)) (digitChar (dy % 10))
      (digitChar (hh / 10 % 10)) (digitChar (hh % 10))
      (digitChar (mi / 10 % 10)) (digitChar (mi % 10))
      (digitChar (ss / 10 % 10)) (digitChar (ss % 10)) micro =
      some ⟨y, mo, dy, hh, mi, ss, micro⟩ := by
  have hvd : PyDateTime.Valid ⟨y, mo, dy, hh, mi, ss, micro⟩ := hv
  unfold PyDateTime.Valid at hv
  dsimp only at hv
  obtain ⟨h1, h2, h3, h4, h5, h6, h7, h8, h9, h10⟩ := hv
  have hy := read4_pad4 y (by omega)
  have hmo := read2_pad2 mo (by omega)
  have hdy := read2_pad2 dy (by have := daysInMonth_le y mo; omega)
  have hhh := read2_pad2 hh (by omega)
  have hmi := read2_pad2 mi (by omega)
  have hss := read2_pad2 ss (by omega)
  simp [checkIso, hy, hmo, hdy, hhh, hmi, hss, isDigit_digitChar_mod, hvd]

theorem parseIso_isoformat (d : PyDateTime) (h : d.Valid) :
    parseIso (isoformat d) = some d := by
  obtain ⟨y, mo, dy, hh, mi, ss, us⟩ := d
  by_cases hm : us = 0
  · subst hm
    have hfmt : isoformat ⟨y, mo, dy, hh, mi, ss, 0⟩ =
        String.mk (digitChar (y / 1000 % 10) :: digitChar (y / 100 % 10) ::
          digitChar (y / 10 % 10) :: digitChar (y % 10) :: '-' ::
          digitChar (mo / 10 % 10) :: digitChar (mo % 10) :: '-' ::
          digitChar (dy / 10 % 10) :: digitChar (dy % 10) :: 'T' ::
          digitChar (hh / 10 % 10) :: digitChar (hh % 10) :: ':' ::
          digitChar (mi / 10 % 10) :: digitChar (mi % 10) :: ':' ::
          digitChar (ss / 10 % 10) :: digitChar (ss % 10) ::
          ['+', '0', '0', ':', '0', '0']) := by
      simp [isoformat, pad4, pad2]
    rw [hfmt]
    unfold parseIso
    simp only [toList_mk]
    simp only [offsetChars]
    norm_num
    exact checkIso_pads y mo dy hh mi ss 0 h
  · have hfmt : isoformat ⟨y, mo, dy, hh, mi, ss, us⟩ =
        String.mk (digitChar (y / 1000 % 10) :: digitChar (y / 100 % 10) ::
          digitChar (y / 10 % 10) :: digitChar (y % 10) :: '-' ::
          digitChar (mo / 10 % 10) :: digitChar (mo % 10) :: '-' ::
          digitChar (dy / 10 % 10) :: digitChar (dy % 10) :: 'T' ::
          digitChar (hh / 10 % 10) :: digitChar (hh % 10) :: ':' ::
          digitChar (mi / 10 % 10) :: digitChar (mi % 10) :: ':' ::
          digitChar (ss / 10 % 10) :: digitChar (ss % 10) :: '.' ::
          digitChar (us / 100000 % 10) :: digitChar (us / 10000 % 10) ::
          digitChar (us / 1000 % 10) :: digitChar (us / 100 % 10) ::
          digitChar (us / 10 % 10) :: digitChar (us % 10) ::
          ['+', '0', '0', ':', '0', '0']) := by
      simp [isoformat, pad4, pad2, pad6, hm]
    rw [hfmt]
    unfold parseIso
    simp only [toList_mk]
    simp only [offsetChars]
    norm_num [isDigit_digitChar_mod]
    have hus : us ≤ 999999 := by
      have h' := h
      unfold PyDateTime.Valid at h'
      dsimp only at h'
      omega
    rw [read6_pad6 us hus]
    exact checkIso_pads y mo dy hh mi ss us h

/-! ### Concrete fixtures (from the local test harness of hello.py, lines 42-57) -/

/-- Environment set by the local test harness of hello.py. -/
def testEnv : Env := fun k =>
  if k = "DB_HOST" then some "localhost"
  else if k = "DB_PORT" then some "5432"
  else if k = "DATA_BUCKET" then some "test-data-bucket"
  else if k = "DEPLOYMENT_BUCKET" then some "test-deployment-bucket"
  else if k = "AWS_REGION" then some "us-east-2"
  else none

/-- Process environment with none of the variables set. -/
def emptyEnv : Env := fun _ => none

/-- Environment in which DB_HOST is set to the empty string. -/
def emptyStrEnv : Env := fun k => if k = "DB_HOST" then some "" else none

/-- The MockContext of the local test harness (the handler never reads
`invoked_function_arn`, so it is not part of the read model). -/
def mockContext : Context :=
  ⟨"my-local-hello-world-function", 256, "test-request-id-12345"⟩

/-- The MockContext as a raw context object: all three read attributes present. -/
def mockContextObj : ContextObj :=
  ⟨some "my-local-hello-world-function", some 256, some "test-request-id-12345"⟩

/-- An arbitrary valid clock reading used for concrete evaluations. -/
def sampleNow : PyDateTime := ⟨2025, 10, 12, 9, 30, 15, 123456⟩

/-- Environment variable names paired with the body paths their values appear at. -/
def envFieldPath : List (String × List String) := [
  ("DB_HOST", ["environment_variables", "database", "host"]),
  ("DB_PORT", ["environment_variables", "database", "port"]),
  ("DATA_BUCKET", ["environment_variables", "buckets", "data_bucket"]),
  ("DEPLOYMENT_BUCKET", ["environment_variables", "buckets", "deployment_bucket"]),
  ("AWS_REGION", ["vpc_info", "region"])]

/-- The four variables read with the 'N/A' default (AWS_REGION has no default). -/
def defaultedEnvFieldPath : List (String × List String) := [
  ("DB_HOST", ["environment_variables", "database", "host"]),
  ("DB_PORT", ["environment_variables", "database", "port"]),
  ("DATA_BUCKET", ["environment_variables", "buckets", "data_bucket"]),
  ("DEPLOYMENT_BUCKET", ["environment_variables", "buckets", "deployment_bucket"])]

/-! ### Claims -/

/-- Claim C1, counterexample: with no environment variables set, the
environment-derived region field of the returned body is the JSON null value,
not the placeholder string 'N/A'; so the claim that all five
environment-derived configuration fields equal 'N/A' fails at the region
field. -/
theorem c1_region_not_placeholder :
    jLookup (handlerBodyJson mockContext emptyEnv sampleNow) ["vpc_info", "region"] =
      some JValue.null ∧
    (JValue.null ≠ JValue.str "N/A") := by
  refine ⟨rfl, fun hcontra => JValue.noConfusion hcontra⟩

/-- Claim C1, amended: for every invocation in which none of DB_HOST, DB_PORT,
DATA_BUCKET, DEPLOYMENT_BUCKET, AWS_REGION is set, the handler returns the
serialisation of a body whose four defaulted configuration fields equal the
placeholder 'N/A', and whose vpc_info.region field holds the undefined value
(JSON null) rather than the placeholder. -/
theorem c1_no_env_defaults (e : JValue) (c : Context) (env : Env) (now : PyDateTime)
    (h1 : env "DB_HOST" = none) (h2 : env "DB_PORT" = none)
    (h3 : env "DATA_BUCKET" = none) (h4 : env "DEPLOYMENT_BUCKET" = none)
    (h5 : env "AWS_REGION" = none) :
    lambda_handler e (ContextObj.mk (some c.function_name) (some c.memory_limit_in_mb)
        (some c.aws_request_id)) env now =
      Except.ok (Response.mk 200 [("Content-Type", "application/json")]
        (dumps (handlerBodyJson c env now))) ∧
    jLookup (handlerBodyJson c env now) ["environment_variables", "database", "host"] =
      some (JValue.str "N/A") ∧
    jLookup (handlerBodyJson c env now) ["environment_variables", "database", "port"] =
      some (JValue.str "N/A") ∧
    jLookup (handlerBodyJson c env now) ["environment_variables", "buckets", "data_bucket"] =
      some (JValue.str "N/A") ∧
    jLookup (handlerBodyJson c env now) ["environment_variables", "buckets", "deployment_bucket"] =
      some (JValue.str "N/A") ∧
    jLookup (handlerBodyJson c env now) ["vpc_info", "region"] = some JValue.null := by
  refine ⟨rfl, ?_, ?_, ?_, ?_, ?_⟩ <;>
    (simp only [handlerBodyJson, h1, h2, h3, h4, h5]; rfl)

/-- Witness for the amended claim C1 at the empty environment. -/
theorem c1_no_env_defaults_witness :
    jLookup (handlerBodyJson mockContext emptyEnv sampleNow)
      ["environment_variables", "database", "host"] = some (JValue.str "N/A") :=
  (c1_no_env_defaults JValue.null mockContext emptyEnv sampleNow rfl rfl rfl rfl rfl).2.1

/-- Claim C2: for every environment variable among the five the handler reads
that is set, the corresponding field of the returned JSON body equals exactly
the variable's value, with no transformation. -/
theorem c2_set_env_exact (e : JValue) (c : Context) (env : Env) (now : PyDateTime)
    (key : String) (path : List String) (v : String)
    (hmem : (key, path) ∈ envFieldPath) (hset : env key = some v) :
    lambda_handler e (ContextObj.mk (some c.function_name) (some c.memory_limit_in_mb)
        (some c.aws_request_id)) env now =
      Except.ok (Response.mk 200 [("Content-Type", "application/json")]
        (dumps (handlerBodyJson c env now))) ∧
    jLookup (handlerBodyJson c env now) path = some (JValue.str v) := by
  refine ⟨rfl, ?_⟩
  simp [envFieldPath] at hmem
  rcases hmem with ⟨rfl, rfl⟩ | ⟨rfl, rfl⟩ | ⟨rfl, rfl⟩ | ⟨rfl, rfl⟩ | ⟨rfl, rfl⟩ <;>
    (simp only [handlerBodyJson, hset]; rfl)

/-- Witness for claim C2 at the local test harness environment. -/
theorem c2_set_env_exact_witness :
    jLookup (handlerBodyJson mockContext testEnv sampleNow)
      ["environment_variables", "database", "host"] = some (JValue.str "localhost") :=
  (c2_set_env_exact JValue.null mockContext testEnv sampleNow "DB_HOST"
    ["environment_variables", "database", "host"] "localhost"
    (by simp [envFieldPath]) rfl).2

/-- Claim C3: whenever the handler returns a response, its statusCode is
exactly 200 and its headers map is exactly the singleton
Content-Type: application/json. -/
theorem c3_status_and_headers (e : JValue) (c : ContextObj) (env : Env)
    (now : PyDateTime) (r : Response)
    (h : lambda_handler e c env now = Except.ok r) :
    r.statusCode = 200 ∧ r.headers = [("Content-Type", "application/json")] := by
  obtain ⟨fn, mem, rid⟩ := c
  cases fn <;> cases mem <;> cases rid <;>
    simp [lambda_handler, getAttr] at h
  subst h
  exact ⟨rfl, rfl⟩

/-- Witness for claim C3 at the local test harness input. -/
theorem c3_status_and_headers_witness :
    (Response.mk 200 [("Content-Type", "application/json")]
      (dumps (handlerBodyJson mockContext testEnv sampleNow))).statusCode = 200 ∧
    (Response.mk 200 [("Content-Type", "application/json")]
      (dumps (handlerBodyJson mockContext testEnv sampleNow))).headers =
      [("Content-Type", "application/json")] :=
  c3_status_and_headers JValue.null mockContextObj testEnv sampleNow _ rfl

/-- Claim C4: whenever the context exposes the three read attributes, the
handler signals no error and returns normally, for every event, every
environment (in particular one with no variables set, which degrades to the
placeholder rather than failing) and every clock reading; the event is never
validated. -/
theorem c4_no_error_on_full_context (e : JValue) (nm : String) (mem : Int)
    (rid : String) (env : Env) (now : PyDateTime) :
    ∃ r, lambda_handler e (ContextObj.mk (some nm) (some mem) (some rid)) env now =
      Except.ok r ∧ r.statusCode = 200 :=
  ⟨_, rfl, rfl⟩

/-- Claim C5: the invocation event is ignored: two invocations differing only
in the event produce identical results. -/
theorem c5_event_ignored (e1 e2 : JValue) (c : ContextObj) (env : Env)
    (now : PyDateTime) :
    lambda_handler e1 c env now = lambda_handler e2 c env now := rfl

/-- Claim C6: the timestamp field of the returned body is the ISO-8601 UTC
rendering of the clock reading taken during the call, and it parses back to a
datetime equal to that reading. -/
theorem c6_timestamp_roundtrip (c : Context) (env : Env) (now : PyDateTime)
    (h : now.Valid) :
    jLookup (handlerBodyJson c env now) ["timestamp"] =
      some (JValue.str (isoformat now)) ∧
    parseIso (isoformat now) = some now :=
  ⟨rfl, parseIso_isoformat now h⟩

/-- Witness for claim C6 at a concrete valid clock reading. -/
theorem c6_timestamp_roundtrip_witness :
    PyDateTime.Valid sampleNow ∧ parseIso (isoformat sampleNow) = some sampleNow :=
  ⟨by decide, (c6_timestamp_roundtrip mockContext testEnv sampleNow (by decide)).2⟩

/-- Claim C7: the handler has no side effects beyond reading the process
environment and the wall clock: the observable world threaded through every
read of the state-passing form comes back unchanged. -/
theorem c7_world_unchanged (e : JValue) (c : Context) (w : World) :
    (lambda_handlerState e c w).2 = w := rfl

/-- Claim C8: at the local test harness input (test environment, MockContext),
the body's environment_variables.database.host is "localhost",
environment_variables.buckets.data_bucket is "test-data-bucket", and
function_info.memory_limit is 256. -/
theorem c8_local_harness_example :
    jLookup (handlerBodyJson mockContext testEnv sampleNow)
      ["environment_variables", "database", "host"] = some (JValue.str "localhost") ∧
    jLookup (handlerBodyJson mockContext testEnv sampleNow)
      ["environment_variables", "buckets", "data_bucket"] =
      some (JValue.str "test-data-bucket") ∧
    jLookup (handlerBodyJson mockContext testEnv sampleNow)
      ["function_info", "memory_limit"] = some (JValue.num 256) ∧
    lambda_handler (JValue.obj []) mockContextObj testEnv sampleNow =
      Except.ok (Response.mk 200 [("Content-Type", "application/json")]
        (dumps (handlerBodyJson mockContext testEnv sampleNow))) :=
  ⟨rfl, rfl, rfl, rfl⟩

/-- Claim C9: the placeholder is substituted only when a variable is unset; a
variable set to the empty string yields the empty string in the body, not
'N/A'. -/
theorem c9_empty_string_not_defaulted (c : Context) (env : Env) (now : PyDateTime)
    (key : String) (path : List String)
    (hmem : (key, path) ∈ defaultedEnvFieldPath) (hset : env key = some "") :
    jLookup (handlerBodyJson c env now) path = some (JValue.str "") := by
  simp [defaultedEnvFieldPath] at hmem
  rcases hmem with ⟨rfl, rfl⟩ | ⟨rfl, rfl⟩ | ⟨rfl, rfl⟩ | ⟨rfl, rfl⟩ <;>
    (simp only [handlerBodyJson, hset]; rfl)

/-- Witness for claim C9 with DB_HOST set to the empty string. -/
theorem c9_empty_string_not_defaulted_witness :
    jLookup (handlerBodyJson mockContext emptyStrEnv sampleNow)
      ["environment_variables", "database", "host"] = some (JValue.str "") :=
  c9_empty_string_not_defaulted mockContext emptyStrEnv sampleNow "DB_HOST"
    ["environment_variables", "database", "host"] (by simp [defaultedEnvFieldPath]) rfl

/-- Claim C10: the vpc_info.region key is present in the body of every
invocation; its value is JSON null exactly when AWS_REGION is unset, and the
variable's string value otherwise. -/
theorem c10_region_key_present (c : Context) (env : Env) (now : PyDateTime) :
    jLookup (handlerBodyJson c env now) ["vpc_info", "region"] =
      some (match env "AWS_REGION" with
        | none => JValue.null
        | some s => JValue.str s) := by
  cases h : env "AWS_REGION" <;> (simp only [handlerBodyJson, h]; rfl)
